import Mathlib

/-!
# Verification of the RabbitMQ retry/redelivery subsystem

A shallow embedding of the Go `rabbitmq` package (connection manager,
publisher, consumer loop, retry strategies) together with proofs of the
behavioural properties claimed by the package specification.

Modelling conventions:
* Go `int` / `int64` are modelled as `Int`; the Go `int32(...)` conversion is
  modelled explicitly by `toInt32` (wrap into `[-2^31, 2^31)`).
* `float64` values (the exponential-backoff multiplier and the delay
  computation in `GetDelay`) are modelled as exact rationals `ℚ`; the Go
  `int(...)` conversion on a float truncates toward zero, modelled by
  `ratTrunc`.  On the concrete schedules checked below every intermediate
  value is an integer that is exactly representable in a `float64`, so the
  rational model agrees with the floating-point computation there.
* `amqp.Table` (a Go `map[string]interface{}`) is modelled as an association
  list with last-write-wins update (`Table.set`); only lookups are ever
  observed, so the representation choice is invisible to the properties.
* Broker side effects (declare / bind / publish / ack / nack / consume) are
  recorded as an explicit trace of `AmqpOp` events, and each fallible broker
  call is given an outcome bit in an environment record, so that "the run
  succeeded" is an ordinary hypothesis.
* `time.Now().Unix()` is passed in as an explicit `now : Int` parameter.
-/

set_option autoImplicit false

namespace RabbitMQ

/-- Values stored in an `amqp.Table` (`map[string]interface{}`): the package
only ever stores or reads `int32`, `int64` and `string` values; anything else
a peer may have put on the wire is collapsed into `otherVal`. -/
inductive HeaderValue where
  | int32Val (n : Int)
  | int64Val (n : Int)
  | strVal (s : String)
  | otherVal
  deriving DecidableEq

/-- `amqp.Table`, a string-keyed map, as an association list. -/
abbrev Table := List (String × HeaderValue)

namespace Table

/-- Map lookup `t[k]` (first binding wins; `Table.set` keeps keys unique). -/
def lookup : Table → String → Option HeaderValue
  | [], _ => none
  | (k', v') :: rest, k => if k' = k then some v' else lookup rest k

/-- Map assignment `t[k] = v`: overwrite the existing binding in place, or
append a new binding. -/
def set : Table → String → HeaderValue → Table
  | [], k, v => [(k, v)]
  | (k', v') :: rest, k, v =>
      if k' = k then (k, v) :: rest else (k', v') :: set rest k v

end Table

/-- Go's `int32(n)` conversion from a wider integer: wrap into
`[-2^31, 2^31)`. -/
def toInt32 (n : Int) : Int := (n + 2 ^ 31) % 2 ^ 32 - 2 ^ 31

/-- Truncation toward zero, the semantics of Go's `int(f)` on a `float64`,
transported to the exact-rational model. -/
def ratTrunc (q : ℚ) : Int := if 0 ≤ q then ⌊q⌋ else -⌊-q⌋

/-- Message bodies are opaque byte strings. -/
abbrev Bytes := List Nat

/-- The fields of `amqp.Delivery` that this package reads or forwards. -/
structure Delivery where
  Headers : Option Table
  ContentType : String
  Body : Bytes
  DeliveryMode : Nat
  Priority : Nat
  RoutingKey : String
  deriving DecidableEq

/-- `RetryMetadata` (part_008): retry-related metadata extracted from message
headers. -/
structure RetryMetadata where
  AttemptCount : Int
  OriginalQueue : String
  FirstFailedAt : Int
  deriving DecidableEq

/-- `GetRetryMetadata` (part_011 lines 221-243): starts from the zero value
with `AttemptCount = 0`, returns it unchanged on nil headers, otherwise fills
each field from its header key when the stored value has the exact dynamic
type the Go type assertion demands (`int32` / `string` / `int64`). -/
def GetRetryMetadata (delivery : Delivery) : RetryMetadata :=
  let metadata : RetryMetadata :=
    { AttemptCount := 0, OriginalQueue := "", FirstFailedAt := 0 }
  match delivery.Headers with
  | none => metadata
  | some headers =>
      let metadata :=
        match headers.lookup "x-retry-count" with
        | some (.int32Val count) => { metadata with AttemptCount := count }
        | _ => metadata
      let metadata :=
        match headers.lookup "x-original-queue" with
        | some (.strVal queue) => { metadata with OriginalQueue := queue }
        | _ => metadata
      let metadata :=
        match headers.lookup "x-first-failed-at" with
        | some (.int64Val timestamp) => { metadata with FirstFailedAt := timestamp }
        | _ => metadata
      metadata

/-- The `amqp.Publishing` fields this package populates when re-publishing a
failed delivery. -/
structure Publishing where
  ContentType : String
  Body : Bytes
  DeliveryMode : Nat
  Priority : Nat
  Headers : Option Table
  Expiration : String := ""
  deriving DecidableEq

/-- A broker operation issued over a channel, recorded as a trace event. -/
inductive AmqpOp where
  | exchangeDeclare (name ekind : String) (durable autoDelete internal noWait : Bool)
  | queueDeclare (name : String) (durable autoDelete exclusive noWait : Bool)
      (args : Option Table)
  | queueBind (queueName key exchangeName : String) (noWait : Bool)
  | consume (queueName consumerTag : String) (noAck exclusive noWait : Bool)
  | publish (exchange key : String) (mandatory immediate : Bool) (msg : Publishing)
  | ack (multiple : Bool)
  | nack (multiple requeue : Bool)
  | cancel (consumerTag : String) (noWait : Bool)
  | registerConsumerTag (queue tag : String)
  deriving DecidableEq

/-- `ImmediateRetryStrategy` (part_012). -/
structure ImmediateRetryStrategy where
  MaxAttempts : Int
  deriving DecidableEq

/-- `FixedDelayRetryStrategy` (part_012). -/
structure FixedDelayRetryStrategy where
  MaxAttempts : Int
  DelayMs : Int
  deriving DecidableEq

/-- `ExponentialBackoffStrategy` (part_012); the `float64` multiplier is
modelled as an exact rational. -/
structure ExponentialBackoffStrategy where
  MaxAttempts : Int
  InitialDelayMs : Int
  Multiplier : ℚ
  MaxDelayMs : Int
  deriving DecidableEq

/-- `ImmediateRetryStrategy.ShouldRetry` (part_012 lines 23-26). -/
def ImmediateRetryStrategy.ShouldRetry (s : ImmediateRetryStrategy)
    (delivery : Delivery) : Bool :=
  (GetRetryMetadata delivery).AttemptCount < s.MaxAttempts

/-- `FixedDelayRetryStrategy.ShouldRetry` (part_012 lines 69-72). -/
def FixedDelayRetryStrategy.ShouldRetry (s : FixedDelayRetryStrategy)
    (delivery : Delivery) : Bool :=
  (GetRetryMetadata delivery).AttemptCount < s.MaxAttempts

/-- `ExponentialBackoffStrategy.ShouldRetry` (part_012 lines 193-196). -/
def ExponentialBackoffStrategy.ShouldRetry (s : ExponentialBackoffStrategy)
    (delivery : Delivery) : Bool :=
  (GetRetryMetadata delivery).AttemptCount < s.MaxAttempts

/-- `ImmediateRetryStrategy.GetDelay` (part_012 lines 28-30): always 0. -/
def ImmediateRetryStrategy.GetDelay (_s : ImmediateRetryStrategy)
    (_attemptCount : Int) : Int := 0

/-- `FixedDelayRetryStrategy.GetDelay` (part_012 lines 74-76). -/
def FixedDelayRetryStrategy.GetDelay (s : FixedDelayRetryStrategy)
    (_attemptCount : Int) : Int := s.DelayMs

/-- `ExponentialBackoffStrategy.GetDelay` (part_012 lines 198-206):
`delay := float64(InitialDelayMs) * math.Pow(Multiplier, float64(attemptCount))`,
then `if int(delay) > MaxDelayMs return MaxDelayMs else return int(delay)`. -/
def ExponentialBackoffStrategy.GetDelay (s : ExponentialBackoffStrategy)
    (attemptCount : Int) : Int :=
  let delay : ℚ := (s.InitialDelayMs : ℚ) * s.Multiplier ^ attemptCount
  if ratTrunc delay > s.MaxDelayMs then s.MaxDelayMs else ratTrunc delay

/-- `ImmediateRetryStrategy.Setup` (part_012 lines 32-35): no broker
operations. -/
def ImmediateRetryStrategy.SetupOps (_s : ImmediateRetryStrategy)
    (_originalQueue : String) : List AmqpOp := []

/-- `FixedDelayRetryStrategy.Setup` (part_012 lines 78-126): declare the DLX
exchange, declare the single wait queue with DLX/TTL args, bind the original
queue to the DLX.  The trace lists the broker calls issued on a run in which
none of them fails. -/
def FixedDelayRetryStrategy.SetupOps (s : FixedDelayRetryStrategy)
    (originalQueue : String) : List AmqpOp :=
  let waitQueueName := originalQueue ++ ".wait"
  let dlxName := originalQueue ++ ".dlx"
  [ .exchangeDeclare dlxName "direct" true false false false,
    .queueDeclare waitQueueName true false false false
      (some [("x-dead-letter-exchange", .strVal dlxName),
             ("x-dead-letter-routing-key", .strVal originalQueue),
             ("x-message-ttl", .int32Val (toInt32 s.DelayMs))]),
    .queueBind originalQueue originalQueue dlxName false ]

/-- `ExponentialBackoffStrategy.Setup` (part_012 lines 208-260): declare the
DLX exchange, then `for i := 0; i < MaxAttempts; i++` declare wait queue
`<queue>.wait.<i>` with TTL `GetDelay(i)`, then bind the original queue to the
DLX. -/
def ExponentialBackoffStrategy.SetupOps (s : ExponentialBackoffStrategy)
    (originalQueue : String) : List AmqpOp :=
  let dlxName := originalQueue ++ ".dlx"
  [AmqpOp.exchangeDeclare dlxName "direct" true false false false]
    ++ ((List.range s.MaxAttempts.toNat).map fun (i : Nat) =>
          AmqpOp.queueDeclare (originalQueue ++ ".wait." ++ toString i)
            true false false false
            (some [("x-dead-letter-exchange", .strVal dlxName),
                   ("x-dead-letter-routing-key", .strVal originalQueue),
                   ("x-message-ttl", .int32Val (toInt32 (s.GetDelay (i : Int))))]))
    ++ [AmqpOp.queueBind originalQueue originalQueue dlxName false]

/-- `ImmediateRetryStrategy.HandleFailure` (part_012 lines 37-53): initialise
nil headers, bump `x-retry-count`, stamp `x-original-queue`, stamp
`x-first-failed-at` only when the parsed metadata has `FirstFailedAt == 0`,
then `Nack(false, true)`.  Returns the final header table together with the
broker operation issued. -/
def ImmediateRetryStrategy.HandleFailure (_s : ImmediateRetryStrategy)
    (now : Int) (delivery : Delivery) : Table × AmqpOp :=
  let metadata := GetRetryMetadata delivery
  let headers := delivery.Headers.getD []
  let headers := headers.set "x-retry-count"
    (.int32Val (toInt32 (metadata.AttemptCount + 1)))
  let headers := headers.set "x-original-queue" (.strVal delivery.RoutingKey)
  let headers :=
    if metadata.FirstFailedAt = 0 then
      headers.set "x-first-failed-at" (.int64Val now)
    else headers
  (headers, .nack false true)

/-- `FixedDelayRetryStrategy.HandleFailure` (part_012 lines 128-163): same
header stamping, then publish the message (body and properties copied from the
delivery) to `<routingKey>.wait` on the default exchange. -/
def FixedDelayRetryStrategy.HandleFailure (_s : FixedDelayRetryStrategy)
    (now : Int) (delivery : Delivery) : Table × AmqpOp :=
  let metadata := GetRetryMetadata delivery
  let waitQueueName := delivery.RoutingKey ++ ".wait"
  let headers := delivery.Headers.getD []
  let headers := headers.set "x-retry-count"
    (.int32Val (toInt32 (metadata.AttemptCount + 1)))
  let headers := headers.set "x-original-queue" (.strVal delivery.RoutingKey)
  let headers :=
    if metadata.FirstFailedAt = 0 then
      headers.set "x-first-failed-at" (.int64Val now)
    else headers
  (headers, .publish "" waitQueueName false false
    { ContentType := delivery.ContentType, Body := delivery.Body,
      DeliveryMode := delivery.DeliveryMode, Priority := delivery.Priority,
      Headers := some headers })

/-- `ExponentialBackoffStrategy.HandleFailure` (part_012 lines 262-297): same
header stamping, then publish to `<routingKey>.wait.<attemptCount>` where
`attemptCount` is the value parsed from the incoming headers. -/
def ExponentialBackoffStrategy.HandleFailure (_s : ExponentialBackoffStrategy)
    (now : Int) (delivery : Delivery) : Table × AmqpOp :=
  let metadata := GetRetryMetadata delivery
  let waitQueueName := delivery.RoutingKey ++ ".wait." ++ toString metadata.AttemptCount
  let headers := delivery.Headers.getD []
  let headers := headers.set "x-retry-count"
    (.int32Val (toInt32 (metadata.AttemptCount + 1)))
  let headers := headers.set "x-original-queue" (.strVal delivery.RoutingKey)
  let headers :=
    if metadata.FirstFailedAt = 0 then
      headers.set "x-first-failed-at" (.int64Val now)
    else headers
  (headers, .publish "" waitQueueName false false
    { ContentType := delivery.ContentType, Body := delivery.Body,
      DeliveryMode := delivery.DeliveryMode, Priority := delivery.Priority,
      Headers := some headers })

/-- The `RetryStrategy` interface (part_008), a closed set of the three
implementations in part_012. -/
inductive RetryStrategy where
  | immediate (s : ImmediateRetryStrategy)
  | fixedDelay (s : FixedDelayRetryStrategy)
  | exponentialBackoff (s : ExponentialBackoffStrategy)
  deriving DecidableEq

/-- Dynamic dispatch of `ShouldRetry`. -/
def RetryStrategy.ShouldRetry : RetryStrategy → Delivery → Bool
  | .immediate s, d => s.ShouldRetry d
  | .fixedDelay s, d => s.ShouldRetry d
  | .exponentialBackoff s, d => s.ShouldRetry d

/-- Dynamic dispatch of `Setup`. -/
def RetryStrategy.SetupOps : RetryStrategy → String → List AmqpOp
  | .immediate s, q => s.SetupOps q
  | .fixedDelay s, q => s.SetupOps q
  | .exponentialBackoff s, q => s.SetupOps q

/-- Dynamic dispatch of `HandleFailure`. -/
def RetryStrategy.HandleFailure : RetryStrategy → Int → Delivery → Table × AmqpOp
  | .immediate s, now, d => s.HandleFailure now d
  | .fixedDelay s, now, d => s.HandleFailure now d
  | .exponentialBackoff s, now, d => s.HandleFailure now d

/-- The `maxAttempts` field of whichever variant is configured. -/
def RetryStrategy.maxAttempts : RetryStrategy → Int
  | .immediate s => s.MaxAttempts
  | .fixedDelay s => s.MaxAttempts
  | .exponentialBackoff s => s.MaxAttempts

/-- `QueueOptions` (part_008). -/
structure QueueOptions where
  Durable : Bool
  AutoDelete : Bool
  Exclusive : Bool
  NoWait : Bool
  Args : Option Table
  deriving DecidableEq

/-- `DefaultQueueOptions` (part_008): durable, nil args. -/
def DefaultQueueOptions : QueueOptions :=
  { Durable := true, AutoDelete := false, Exclusive := false,
    NoWait := false, Args := none }

/-- `PublishOptions` (part_008). -/
structure PublishOptions where
  Persistent : Bool
  Priority : Nat
  Expiration : String
  Headers : Option Table
  QueueOptions : Option QueueOptions
  EnableQueueDeclare : Bool
  ChannelID : String
  deriving DecidableEq

/-- `DefaultPublishOptions` (part_008): persistent, queue declaration
disabled, remaining fields zero-valued. -/
def DefaultPublishOptions : PublishOptions :=
  { Persistent := true, Priority := 0, Expiration := "", Headers := none,
    QueueOptions := none, EnableQueueDeclare := false, ChannelID := "" }

/-- `ConsumeOptions` (part_008). -/
structure ConsumeOptions where
  NoAck : Bool
  Exclusive : Bool
  ConsumerTag : String
  NoWait : Bool
  Args : Option Table
  QueueOptions : Option QueueOptions
  RetryStrategy : Option RetryStrategy
  EnableDLQ : Bool
  ChannelID : String
  deriving DecidableEq

/-- The options value `ConsumeQueue` substitutes for a nil `options`
(part_011 lines 17-22): `NoAck: false, Exclusive: false`, remaining fields
zero-valued. -/
def DefaultConsumeOptions : ConsumeOptions :=
  { NoAck := false, Exclusive := false, ConsumerTag := "", NoWait := false,
    Args := none, QueueOptions := none, RetryStrategy := none,
    EnableDLQ := false, ChannelID := "" }

/-- The errors the package surfaces, by source.  `handlerError` stands for a
business-logic failure returned by the user's message handler. -/
inductive RmqError where
  | channelError
  | declareError
  | bindError
  | setupError
  | consumeError
  | serializationError
  | publishError
  | ackError
  | nackError
  | cancelError
  | handlerError
  deriving DecidableEq

/-- Outcomes of the fallible broker calls made while processing one delivery
(`processMessage`, part_011 lines 139-193).  `handlerFails` is the outcome of
the user handler; `handleFailureOk` is the outcome of the retry strategy's
`HandleFailure` call (its nack or publish); `ackOk` / `nackOk` are the
outcomes of the final `Ack` / `Nack` on the original delivery. -/
structure PMEnv where
  getChannelOk : Bool
  handlerFails : Bool
  handleFailureOk : Bool
  ackOk : Bool
  nackOk : Bool
  deriving DecidableEq

/-- `processMessage` (part_011 lines 139-193): run the handler; on failure,
if a strategy is configured and `ShouldRetry` holds, call `HandleFailure` and
ack the original on its success or nack-without-requeue on its failure;
otherwise nack without requeue.  On handler success, ack unless `NoAck`.
Returns the trace of broker operations on the delivery and the error value
`processMessage` itself returns (`none` = nil). -/
def processMessage (env : PMEnv) (options : ConsumeOptions)
    (delivery : Delivery) (now : Int) : List AmqpOp × Option RmqError :=
  if ¬ env.getChannelOk then ([], some .channelError)
  else if env.handlerFails then
    match options.RetryStrategy with
    | some strategy =>
        if strategy.ShouldRetry delivery then
          let hf := strategy.HandleFailure now delivery
          if ¬ env.handleFailureOk then
            ([hf.2, .nack false false],
             if env.nackOk then none else some .nackError)
          else
            ([hf.2, .ack false], if env.ackOk then none else some .ackError)
        else
          ([.nack false false], if env.nackOk then none else some .nackError)
    | none => ([.nack false false], if env.nackOk then none else some .nackError)
  else if ¬ options.NoAck then
    ([.ack false], if env.ackOk then none else some .ackError)
  else ([], none)

/-- Outcomes of the fallible broker calls made by `ConsumeQueue` and
`setupDLQ`. -/
structure ConsumeEnv where
  getChannelOk : Bool
  dlqExchangeOk : Bool
  dlqQueueOk : Bool
  dlqBindOk : Bool
  queueDeclareOk : Bool
  strategySetupOk : Bool
  consumeOk : Bool
  deriving DecidableEq

/-- `setupDLQ` (part_011 lines 246-297): declare `<queue>.failed.dlx`,
declare `<queue>.failed` (no args), bind them, then mutate the original
queue's `Args` to dead-letter into the new exchange.  Returns the trace, the
error (`none` = nil) and the queue options after the mutation. -/
def setupDLQ (env : ConsumeEnv) (originalQueue : String)
    (queueOptions : QueueOptions) :
    List AmqpOp × Option RmqError × QueueOptions :=
  let dlxName := originalQueue ++ ".failed.dlx"
  let dlqName := originalQueue ++ ".failed"
  let exOp := AmqpOp.exchangeDeclare dlxName "direct" true false false false
  if ¬ env.dlqExchangeOk then ([exOp], some .declareError, queueOptions)
  else
    let qOp := AmqpOp.queueDeclare dlqName true false false false none
    if ¬ env.dlqQueueOk then ([exOp, qOp], some .declareError, queueOptions)
    else
      let bOp := AmqpOp.queueBind dlqName dlqName dlxName false
      if ¬ env.dlqBindOk then ([exOp, qOp, bOp], some .bindError, queueOptions)
      else
        let args := queueOptions.Args.getD []
        let args := args.set "x-dead-letter-exchange" (.strVal dlxName)
        let args := args.set "x-dead-letter-routing-key" (.strVal dlqName)
        ([exOp, qOp, bOp], none, { queueOptions with Args := some args })

/-- `ConsumeQueue` (part_011 lines 10-136), up to the point where the
consumer is running: default the options, resolve the channel, run `setupDLQ`
when `EnableDLQ`, declare the original queue, run the retry strategy's
`Setup`, then start consuming.  Returns the trace of broker operations and
the error value `ConsumeQueue` returns (`none` = nil = consuming started). -/
def ConsumeQueue (env : ConsumeEnv) (queue : String)
    (options? : Option ConsumeOptions) : List AmqpOp × Option RmqError :=
  let options := options?.getD DefaultConsumeOptions
  if ¬ env.getChannelOk then ([], some .channelError)
  else
    let queueOptions := options.QueueOptions.getD DefaultQueueOptions
    let dlqResult :=
      if options.EnableDLQ then setupDLQ env queue queueOptions
      else ([], none, queueOptions)
    match dlqResult with
    | (dlqTrace, some e, _) => (dlqTrace, some e)
    | (dlqTrace, none, queueOptions) =>
        let declOp := AmqpOp.queueDeclare queue queueOptions.Durable
          queueOptions.AutoDelete queueOptions.Exclusive queueOptions.NoWait
          queueOptions.Args
        if ¬ env.queueDeclareOk then (dlqTrace ++ [declOp], some .declareError)
        else
          let setupTrace :=
            match options.RetryStrategy with
            | some strategy => strategy.SetupOps queue
            | none => []
          if options.RetryStrategy.isSome ∧ ¬ env.strategySetupOk then
            (dlqTrace ++ [declOp] ++ setupTrace, some .setupError)
          else
            let consumeOp := AmqpOp.consume queue options.ConsumerTag
              options.NoAck options.Exclusive options.NoWait
            if ¬ env.consumeOk then
              (dlqTrace ++ [declOp] ++ setupTrace ++ [consumeOp],
               some .consumeError)
            else
              (dlqTrace ++ [declOp] ++ setupTrace ++ [consumeOp], none)

/-- Outcomes of the fallible calls made by `CancelConsumer`. -/
structure CancelEnv where
  getChannelOk : Bool
  cancelOk : Bool
  deriving DecidableEq

/-- `CancelConsumer` (part_011 lines 197-218): resolve the default channel
and issue `channel.Cancel(consumerTag, false)` on the tag given as argument;
return its error.  The connection's consumer-tag registry (threaded through
as `consumerTags`) is never read or written. -/
def CancelConsumer (env : CancelEnv) (consumerTags : List (String × String))
    (consumerTag : String) :
    List AmqpOp × Option RmqError × List (String × String) :=
  if ¬ env.getChannelOk then ([], some .channelError, consumerTags)
  else if ¬ env.cancelOk then
    ([.cancel consumerTag false], some .cancelError, consumerTags)
  else ([.cancel consumerTag false], none, consumerTags)

/-- Outcomes of the fallible calls made by `PublishToQueue`.  `marshalOk` is
the outcome of `json.Marshal(payload)`; `payloadJSON` stands for the bytes it
produces when it succeeds. -/
structure PublishEnv where
  getChannelOk : Bool
  queueDeclareOk : Bool
  marshalOk : Bool
  publishOk : Bool
  deriving DecidableEq

/-- `PublishToQueue` (part_008 lines 128-241): default the options, resolve
the channel, declare the queue only when `EnableQueueDeclare`, marshal the
payload, then publish to the default exchange with routing key `queue`,
content type `application/json`, delivery mode persistent (2) when
`Persistent` else transient (1), and the options' priority, expiration and
headers. -/
def PublishToQueue (env : PublishEnv) (queue : String)
    (payloadJSON : Bytes) (options? : Option PublishOptions) :
    List AmqpOp × Option RmqError :=
  let options := options?.getD DefaultPublishOptions
  if ¬ env.getChannelOk then ([], some .channelError)
  else
    let queueOptions := options.QueueOptions.getD DefaultQueueOptions
    let declOps : List AmqpOp :=
      if options.EnableQueueDeclare then
        [.queueDeclare queue queueOptions.Durable queueOptions.AutoDelete
          queueOptions.Exclusive queueOptions.NoWait queueOptions.Args]
      else []
    if options.EnableQueueDeclare ∧ ¬ env.queueDeclareOk then
      (declOps, some .declareError)
    else if ¬ env.marshalOk then (declOps, some .serializationError)
    else
      let publishing : Publishing :=
        { ContentType := "application/json", Body := payloadJSON,
          DeliveryMode := if options.Persistent then 2 else 1,
          Priority := options.Priority, Headers := options.Headers,
          Expiration := options.Expiration }
      let pubOp := AmqpOp.publish "" queue false false publishing
      if ¬ env.publishOk then (declOps ++ [pubOp], some .publishError)
      else (declOps ++ [pubOp], none)

/-- The mutable state of a `Connection` (part_009 lines 12-22), with the
`*amqp.Connection` / `*amqp.Channel` pointers abstracted to nil-or-not
booleans, the named-channel map to its key set, and the config's prefetch
kept alongside. -/
structure ConnState where
  hasConn : Bool
  hasDefaultChannel : Bool
  namedChannels : List String
  consumerTags : List (String × String)
  closed : Bool
  prefetch : Int
  deriving DecidableEq

/-- `NewConnection` (part_009 lines 26-37): empty maps, `closed = false`. -/
def NewConnection (prefetch : Int) : ConnState :=
  { hasConn := false, hasDefaultChannel := false, namedChannels := [],
    consumerTags := [], closed := false, prefetch := prefetch }

/-- The operations that can touch a connection's state, each with the
outcomes of its fallible broker calls. -/
inductive ConnOp where
  | connect (dialOk chanOk qosOk : Bool)
  | close
  | getChannel (channelID : String) (createOk qosOk : Bool)
  | registerTag (queue tag : String)
  | removeTag (queue : String)
  | channelClosed (channelID : String)
  deriving DecidableEq

/-- `Connection.Connect` (part_009 lines 40-88): return early when both the
link and the default channel exist; otherwise dial, open the default channel,
apply QoS when `prefetch > 0`; on any failure the partially-established
resources are closed and the state is unchanged.  The `closed` flag is never
touched. -/
def connectStep (s : ConnState) (dialOk chanOk qosOk : Bool) : ConnState :=
  if s.hasConn ∧ s.hasDefaultChannel then s
  else if ¬ dialOk then s
  else if ¬ chanOk then s
  else if 0 < s.prefetch ∧ ¬ qosOk then s
  else { s with hasConn := true, hasDefaultChannel := true }

/-- `Connection.Close` (part_009 lines 242-300): return early when already
closed; otherwise close and clear all named channels, the default channel and
the link, clear the consumer-tag map and set `closed = true`. -/
def closeStep (s : ConnState) : ConnState :=
  if s.closed then s
  else { s with namedChannels := [], hasDefaultChannel := false,
                hasConn := false, consumerTags := [], closed := true }

/-- `Connection.GetChannel` (part_009 lines 139-205): the empty ID resolves
the default channel without touching state; a named ID is served from the
cache, or created (requiring a live link, a successful channel open, and QoS
when `prefetch > 0`) and cached. -/
def getChannelStep (s : ConnState) (channelID : String)
    (createOk qosOk : Bool) : ConnState :=
  if channelID = "" then s
  else if channelID ∈ s.namedChannels then s
  else if ¬ s.hasConn then s
  else if ¬ createOk then s
  else if 0 < s.prefetch ∧ ¬ qosOk then s
  else { s with namedChannels := channelID :: s.namedChannels }

/-- `Connection.RegisterConsumerTag` (part_009 lines 213-217). -/
def registerTagStep (s : ConnState) (queue tag : String) : ConnState :=
  { s with consumerTags :=
      (queue, tag) :: s.consumerTags.filter (fun p => p.1 ≠ queue) }

/-- `Connection.RemoveConsumerTag` (part_009 lines 228-232). -/
def removeTagStep (s : ConnState) (queue : String) : ConnState :=
  { s with consumerTags := s.consumerTags.filter (fun p => p.1 ≠ queue) }

/-- The close-observer callback (part_009 lines 110-134): a named channel is
removed from the cache when its close is observed; the default channel is
never removed. -/
def channelClosedStep (s : ConnState) (channelID : String) : ConnState :=
  if channelID ≠ "default" then
    { s with namedChannels := s.namedChannels.filter (fun c => c ≠ channelID) }
  else s

/-- One state transition of the connection. -/
def connStep (s : ConnState) : ConnOp → ConnState
  | .connect dialOk chanOk qosOk => connectStep s dialOk chanOk qosOk
  | .close => closeStep s
  | .getChannel channelID createOk qosOk => getChannelStep s channelID createOk qosOk
  | .registerTag queue tag => registerTagStep s queue tag
  | .removeTag queue => removeTagStep s queue
  | .channelClosed channelID => channelClosedStep s channelID

/-- `Connection.IsConnected` (part_009 lines 235-239):
`conn != nil && defaultChannel != nil && !closed`. -/
def IsConnected (s : ConnState) : Bool :=
  s.hasConn && s.hasDefaultChannel && !s.closed

/-! ## Properties -/

theorem Table.lookup_set_self (t : Table) (k : String) (v : HeaderValue) :
    (t.set k v).lookup k = some v := by
  induction t with
  | nil => simp [Table.set, Table.lookup]
  | cons hd rest ih =>
      by_cases h : hd.1 = k <;> simp [Table.set, Table.lookup, h, ih]

theorem Table.lookup_set_ne (t : Table) (k k' : String) (v : HeaderValue)
    (hne : k ≠ k') : (t.set k v).lookup k' = t.lookup k' := by
  induction t with
  | nil => simp [Table.set, Table.lookup, hne]
  | cons hd rest ih =>
      obtain ⟨k0, v0⟩ := hd
      by_cases h : k0 = k
      · subst h
        simp [Table.set, Table.lookup, hne]
      · by_cases h' : k0 = k' <;>
          simp [Table.set, Table.lookup, h, h', ih, Ne.symm hne]

theorem ratTrunc_intCast (n : Int) : ratTrunc (n : ℚ) = n := by
  unfold ratTrunc
  by_cases h : (0 : ℚ) ≤ (n : ℚ)
  · simp [h]
  · rw [if_neg h, ← Int.cast_neg, Int.floor_intCast, neg_neg]

/-- C1: for every retry strategy variant (Immediate, FixedDelay,
ExponentialBackoff) with any `maxAttempts` and every delivery, `ShouldRetry`
returns `false` exactly when the attempt count read from the delivery's
headers is `≥ maxAttempts`, and `true` otherwise; in particular an attempt
count equal to `maxAttempts` is denied. -/
theorem shouldRetry_false_iff_attempts_exhausted (strategy : RetryStrategy)
    (delivery : Delivery) :
    (strategy.ShouldRetry delivery = false ↔
      strategy.maxAttempts ≤ (GetRetryMetadata delivery).AttemptCount) ∧
    (strategy.ShouldRetry delivery = true ↔
      (GetRetryMetadata delivery).AttemptCount < strategy.maxAttempts) := by
  cases strategy <;>
    simp [RetryStrategy.ShouldRetry, RetryStrategy.maxAttempts,
      ImmediateRetryStrategy.ShouldRetry, FixedDelayRetryStrategy.ShouldRetry,
      ExponentialBackoffStrategy.ShouldRetry, not_lt]

/-- C2: `ExponentialBackoffStrategy.GetDelay attemptCount` is
`min (trunc (initialDelayMs * multiplier ^ attemptCount)) maxDelayMs`, the
product truncated toward zero on conversion to an integer; and for
`initialDelayMs = 1000`, `multiplier = 2`, `maxDelayMs = 60000` the delays at
attempts 0-4 are 1000, 2000, 4000, 8000, 16000, and attempt 10 is capped at
60000. -/
theorem expBackoff_getDelay_formula :
    (∀ (s : ExponentialBackoffStrategy) (attemptCount : Int),
        s.GetDelay attemptCount =
          min (ratTrunc ((s.InitialDelayMs : ℚ) * s.Multiplier ^ attemptCount))
            s.MaxDelayMs) ∧
    (∀ maxAttempts : Int,
        let s : ExponentialBackoffStrategy :=
          { MaxAttempts := maxAttempts, InitialDelayMs := 1000,
            Multiplier := 2, MaxDelayMs := 60000 }
        s.GetDelay 0 = 1000 ∧ s.GetDelay 1 = 2000 ∧ s.GetDelay 2 = 4000 ∧
          s.GetDelay 3 = 8000 ∧ s.GetDelay 4 = 16000 ∧
          s.GetDelay 10 = 60000) := by
  constructor
  · intro s attemptCount
    unfold ExponentialBackoffStrategy.GetDelay
    by_cases h :
        s.MaxDelayMs <
          ratTrunc ((s.InitialDelayMs : ℚ) * s.Multiplier ^ attemptCount)
    · simp only [gt_iff_lt, h, if_pos]
      exact (min_eq_right h.le).symm
    · simp only [gt_iff_lt, h, if_neg, not_false_iff]
      exact (min_eq_left (not_lt.mp h)).symm
  · intro maxAttempts
    refine ⟨?_, ?_, ?_, ?_, ?_, ?_⟩ <;>
      norm_num [ExponentialBackoffStrategy.GetDelay, ratTrunc]

theorem getRetryMetadata_attemptCount (d : Delivery) :
    (GetRetryMetadata d).AttemptCount =
      (match d.Headers with
       | none => 0
       | some headers =>
           match headers.lookup "x-retry-count" with
           | some (.int32Val count) => count
           | _ => 0) := by
  unfold GetRetryMetadata
  rcases d.Headers with _ | t
  · rfl
  · dsimp only
    split <;> split <;> split <;> simp_all

theorem getRetryMetadata_originalQueue (d : Delivery) :
    (GetRetryMetadata d).OriginalQueue =
      (match d.Headers with
       | none => ""
       | some headers =>
           match headers.lookup "x-original-queue" with
           | some (.strVal queue) => queue
           | _ => "") := by
  unfold GetRetryMetadata
  rcases d.Headers with _ | t
  · rfl
  · dsimp only
    split <;> split <;> split <;> simp_all

theorem getRetryMetadata_firstFailedAt (d : Delivery) :
    (GetRetryMetadata d).FirstFailedAt =
      (match d.Headers with
       | none => 0
       | some headers =>
           match headers.lookup "x-first-failed-at" with
           | some (.int64Val timestamp) => timestamp
           | _ => 0) := by
  unfold GetRetryMetadata
  rcases d.Headers with _ | t
  · rfl
  · dsimp only
    split <;> split <;> split <;> simp_all

/-- C9: for every delivery whose headers are nil or whose `x-retry-count`
entry is absent or not stored as an `int32`, `GetRetryMetadata` returns
`AttemptCount = 0` (with `OriginalQueue` empty and `FirstFailedAt` 0 when
those headers are likewise absent or of the wrong type, and the full zero
metadata on nil headers); consequently every strategy's `ShouldRetry` returns
`true` on such a delivery whenever `maxAttempts > 0`. -/
theorem getRetryMetadata_missing_count_defaults (delivery : Delivery)
    (h : ∀ headers, delivery.Headers = some headers →
           ∀ n, headers.lookup "x-retry-count" ≠ some (.int32Val n)) :
    (GetRetryMetadata delivery).AttemptCount = 0 ∧
    (∀ headers, delivery.Headers = some headers →
        (∀ q, headers.lookup "x-original-queue" ≠ some (.strVal q)) →
        (GetRetryMetadata delivery).OriginalQueue = "") ∧
    (∀ headers, delivery.Headers = some headers →
        (∀ ts, headers.lookup "x-first-failed-at" ≠ some (.int64Val ts)) →
        (GetRetryMetadata delivery).FirstFailedAt = 0) ∧
    (delivery.Headers = none →
        GetRetryMetadata delivery =
          { AttemptCount := 0, OriginalQueue := "", FirstFailedAt := 0 }) ∧
    (∀ strategy : RetryStrategy, 0 < strategy.maxAttempts →
        strategy.ShouldRetry delivery = true) := by
  have hac : (GetRetryMetadata delivery).AttemptCount = 0 := by
    rw [getRetryMetadata_attemptCount]
    cases hH : delivery.Headers with
    | none => rfl
    | some t =>
        cases hl : t.lookup "x-retry-count" with
        | none => simp [hl]
        | some v =>
            cases v with
            | int32Val n => exact absurd hl (h t hH n)
            | int64Val n => simp [hl]
            | strVal s => simp [hl]
            | otherVal => simp [hl]
  refine ⟨hac, ?_, ?_, ?_, ?_⟩
  · intro t hH hq
    rw [getRetryMetadata_originalQueue, hH]
    cases hl : t.lookup "x-original-queue" with
    | none => simp [hl]
    | some v =>
        cases v with
        | int32Val n => simp [hl]
        | int64Val n => simp [hl]
        | strVal q => exact absurd hl (hq q)
        | otherVal => simp [hl]
  · intro t hH hts
    rw [getRetryMetadata_firstFailedAt, hH]
    cases hl : t.lookup "x-first-failed-at" with
    | none => simp [hl]
    | some v =>
        cases v with
        | int32Val n => simp [hl]
        | int64Val ts => exact absurd hl (hts ts)
        | strVal s => simp [hl]
        | otherVal => simp [hl]
  · intro hH
    simp [GetRetryMetadata, hH]
  · intro strategy hpos
    cases strategy <;>
      simp_all [RetryStrategy.ShouldRetry, RetryStrategy.maxAttempts,
        ImmediateRetryStrategy.ShouldRetry,
        FixedDelayRetryStrategy.ShouldRetry,
        ExponentialBackoffStrategy.ShouldRetry]

/-- Witness for C9 at the concrete delivery with nil headers: its attempt
count parses to 0 and the immediate strategy with `MaxAttempts = 3` still
retries it. -/
theorem getRetryMetadata_missing_count_defaults_witness :
    (GetRetryMetadata
        { Headers := none, ContentType := "", Body := [], DeliveryMode := 0,
          Priority := 0, RoutingKey := "jobs" }).AttemptCount = 0 ∧
    RetryStrategy.ShouldRetry (.immediate { MaxAttempts := 3 })
        { Headers := none, ContentType := "", Body := [], DeliveryMode := 0,
          Priority := 0, RoutingKey := "jobs" } = true := by
  have h := getRetryMetadata_missing_count_defaults
    { Headers := none, ContentType := "", Body := [], DeliveryMode := 0,
      Priority := 0, RoutingKey := "jobs" }
    (by intro t ht n; simp at ht)
  exact ⟨h.1, h.2.2.2.2 (.immediate { MaxAttempts := 3 }) (by decide)⟩

/-- C3: for every delivery and every strategy variant, `HandleFailure` writes
into the outgoing message's headers an `x-retry-count` equal to the input
delivery's parsed attempt count incremented by exactly 1 (as a 32-bit
integer), writes `x-original-queue`, and writes `x-first-failed-at` only when
the input delivery's first-failed-at is unset — when it is set, the
`x-first-failed-at` entry is left exactly as it was in the input headers; and
when the strategy re-publishes, the published message carries exactly these
headers. -/
theorem handleFailure_stamps_headers (strategy : RetryStrategy) (now : Int)
    (d : Delivery) :
    (strategy.HandleFailure now d).1.lookup "x-retry-count" =
        some (.int32Val (toInt32 ((GetRetryMetadata d).AttemptCount + 1))) ∧
    (strategy.HandleFailure now d).1.lookup "x-original-queue" =
        some (.strVal d.RoutingKey) ∧
    ((GetRetryMetadata d).FirstFailedAt = 0 →
        (strategy.HandleFailure now d).1.lookup "x-first-failed-at" =
          some (.int64Val now)) ∧
    ((GetRetryMetadata d).FirstFailedAt ≠ 0 →
        (strategy.HandleFailure now d).1.lookup "x-first-failed-at" =
          (d.Headers.getD []).lookup "x-first-failed-at") ∧
    (∀ ex k m i msg, (strategy.HandleFailure now d).2 = .publish ex k m i msg →
        msg.Headers = some (strategy.HandleFailure now d).1) := by
  cases strategy <;>
    · refine ⟨?_, ?_, ?_, ?_, ?_⟩ <;>
        [skip; skip; intro hff; intro hff; intro ex k m i msg hmsg] <;>
        by_cases hz : (GetRetryMetadata d).FirstFailedAt = 0 <;>
        simp_all [RetryStrategy.HandleFailure,
          ImmediateRetryStrategy.HandleFailure,
          FixedDelayRetryStrategy.HandleFailure,
          ExponentialBackoffStrategy.HandleFailure,
          Table.lookup_set_self, Table.lookup_set_ne] <;>
        · obtain ⟨-, -, -, -, rfl⟩ := hmsg
          rfl

/-- Witness for C3: the exponential-backoff strategy at a concrete delivery
whose parsed attempt count is 1 and whose first failure is already stamped:
the outgoing `x-retry-count` is 2 and `x-first-failed-at` is untouched. -/
theorem handleFailure_stamps_headers_witness :
    (RetryStrategy.HandleFailure
        (.exponentialBackoff
          { MaxAttempts := 5, InitialDelayMs := 1000, Multiplier := 2,
            MaxDelayMs := 60000 }) 1700000000
        { Headers := some [("x-retry-count", .int32Val 1),
                           ("x-first-failed-at", .int64Val 99)],
          ContentType := "application/json", Body := [1], DeliveryMode := 2,
          Priority := 0, RoutingKey := "jobs" }).1.lookup "x-retry-count" =
      some (.int32Val 2) ∧
    (RetryStrategy.HandleFailure
        (.exponentialBackoff
          { MaxAttempts := 5, InitialDelayMs := 1000, Multiplier := 2,
            MaxDelayMs := 60000 }) 1700000000
        { Headers := some [("x-retry-count", .int32Val 1),
                           ("x-first-failed-at", .int64Val 99)],
          ContentType := "application/json", Body := [1], DeliveryMode := 2,
          Priority := 0, RoutingKey := "jobs" }).1.lookup "x-first-failed-at" =
      some (.int64Val 99) := by
  have h := handleFailure_stamps_headers
    (.exponentialBackoff
      { MaxAttempts := 5, InitialDelayMs := 1000, Multiplier := 2,
        MaxDelayMs := 60000 }) 1700000000
    { Headers := some [("x-retry-count", .int32Val 1),
                       ("x-first-failed-at", .int64Val 99)],
      ContentType := "application/json", Body := [1], DeliveryMode := 2,
      Priority := 0, RoutingKey := "jobs" }
  refine ⟨?_, ?_⟩
  · rw [h.1]
    decide
  · rw [h.2.2.2.1 (by decide)]
    decide

theorem connStep_preserves_closed (s : ConnState) (op : ConnOp)
    (h : s.closed = true) : (connStep s op).closed = true := by
  cases op <;>
    simp_all [connStep, connectStep, closeStep, getChannelStep,
      registerTagStep, removeTagStep, channelClosedStep] <;>
    split_ifs <;> simp_all

theorem foldl_connStep_closed (s : ConnState) (ops : List ConnOp)
    (h : s.closed = true) : (ops.foldl connStep s).closed = true := by
  induction ops generalizing s with
  | nil => simpa
  | cons op rest ih => exact ih _ (connStep_preserves_closed s op h)

/-- C10: `Close` sets the connection's `closed` flag and no operation ever
clears it; hence once `Close()` has returned, `IsConnected()` is `false` in
every subsequent state — in particular after a later `Connect()` succeeds in
re-establishing the link and the default channel, because `Connect` does not
reset the flag. -/
theorem closed_flag_is_permanent :
    (∀ s : ConnState, (closeStep s).closed = true) ∧
    (∀ (s : ConnState) (op : ConnOp), s.closed = true →
        (connStep s op).closed = true) ∧
    (∀ (s : ConnState) (ops : List ConnOp), s.closed = true →
        IsConnected (ops.foldl connStep s) = false) ∧
    (∀ (s : ConnState) (ops : List ConnOp),
        IsConnected (ops.foldl connStep (closeStep s)) = false) ∧
    (∀ s : ConnState,
        (connStep (closeStep s) (.connect true true true)).hasConn = true ∧
        (connStep (closeStep s) (.connect true true true)).hasDefaultChannel
          = true ∧
        IsConnected (connStep (closeStep s) (.connect true true true))
          = false) := by
  have hclose : ∀ s : ConnState, (closeStep s).closed = true := by
    intro s
    by_cases h : s.closed <;> simp_all [closeStep]
  have hconn : ∀ (s : ConnState) (ops : List ConnOp), s.closed = true →
      IsConnected (ops.foldl connStep s) = false := by
    intro s ops h
    have := foldl_connStep_closed s ops h
    simp [IsConnected, this]
  refine ⟨hclose, connStep_preserves_closed, hconn, ?_, ?_⟩
  · intro s ops
    exact hconn _ ops (hclose s)
  · intro s
    have hcl : (connStep (closeStep s) (.connect true true true)).closed
        = true := connStep_preserves_closed _ _ (hclose s)
    by_cases h : s.closed
    · by_cases h2 : s.hasConn ∧ s.hasDefaultChannel
      · simp_all [connStep, connectStep, closeStep, IsConnected]
      · simp_all [connStep, connectStep, closeStep, IsConnected]
        split_ifs <;> simp_all
    · simp_all [connStep, connectStep, closeStep, IsConnected]

/-- Witness for C10: a fresh connection that is connected, then closed, then
successfully reconnected has a live link and default channel yet reports
`IsConnected = false`. -/
theorem closed_flag_is_permanent_witness :
    IsConnected
        ([ConnOp.connect true true true].foldl connStep
          (closeStep (connStep (NewConnection 0) (.connect true true true))))
      = false ∧
    (connStep (closeStep (connStep (NewConnection 0)
        (.connect true true true))) (.connect true true true)).hasConn
      = true := by
  constructor
  · exact closed_flag_is_permanent.2.2.2.1
      (connStep (NewConnection 0) (.connect true true true))
      [ConnOp.connect true true true]
  · exact (closed_flag_is_permanent.2.2.2.2
      (connStep (NewConnection 0) (.connect true true true))).1

/-- C8: `PublishToQueue` declares the target queue before publishing only
when `EnableQueueDeclare` is set (the default options leave it unset, so the
default is not to declare): with it unset no queue-declare is issued, with it
set the very first broker operation is the declare of the target queue; and
when JSON serialization of the payload fails (on a run that reaches it), the
call returns `serializationError` synchronously and no publish is issued. -/
theorem publishToQueue_declare_gate_and_serialization
    (env : PublishEnv) (queue : String) (payloadJSON : Bytes)
    (options? : Option PublishOptions) :
    ((options?.getD DefaultPublishOptions).EnableQueueDeclare = false →
        ∀ n d a e w args, AmqpOp.queueDeclare n d a e w args ∉
          (PublishToQueue env queue payloadJSON options?).1) ∧
    DefaultPublishOptions.EnableQueueDeclare = false ∧
    (env.getChannelOk = true →
        (options?.getD DefaultPublishOptions).EnableQueueDeclare = true →
        ∃ d a e w args rest, (PublishToQueue env queue payloadJSON options?).1 =
          AmqpOp.queueDeclare queue d a e w args :: rest) ∧
    (env.getChannelOk = true → env.marshalOk = false →
        ((options?.getD DefaultPublishOptions).EnableQueueDeclare = true →
          env.queueDeclareOk = true) →
        (PublishToQueue env queue payloadJSON options?).2 =
            some .serializationError ∧
          ∀ ex k m i msg, AmqpOp.publish ex k m i msg ∉
            (PublishToQueue env queue payloadJSON options?).1) := by
  refine ⟨?_, rfl, ?_, ?_⟩
  · intro hdecl n d a e w args
    by_cases hc : env.getChannelOk <;>
      by_cases hq : env.queueDeclareOk <;>
      by_cases hm : env.marshalOk <;>
      by_cases hp : env.publishOk <;>
      simp [PublishToQueue, hdecl, hc, hq, hm, hp]
  · intro hch hdecl
    refine ⟨((options?.getD DefaultPublishOptions).QueueOptions.getD
        DefaultQueueOptions).Durable,
      ((options?.getD DefaultPublishOptions).QueueOptions.getD
        DefaultQueueOptions).AutoDelete,
      ((options?.getD DefaultPublishOptions).QueueOptions.getD
        DefaultQueueOptions).Exclusive,
      ((options?.getD DefaultPublishOptions).QueueOptions.getD
        DefaultQueueOptions).NoWait,
      ((options?.getD DefaultPublishOptions).QueueOptions.getD
        DefaultQueueOptions).Args, ?_⟩
    by_cases hq : env.queueDeclareOk <;>
      by_cases hm : env.marshalOk <;>
      by_cases hp : env.publishOk <;>
      simp [PublishToQueue, hch, hdecl, hq, hm, hp]
  · intro hch hmarshal hdeclok
    constructor
    · by_cases he : (options?.getD DefaultPublishOptions).EnableQueueDeclare <;>
        simp_all [PublishToQueue]
    · intro ex k m i msg
      by_cases he : (options?.getD DefaultPublishOptions).EnableQueueDeclare <;>
        simp_all [PublishToQueue]

/-- Witness for C8: with default options (no declare) and a failing
`json.Marshal`, `PublishToQueue` returns `serializationError` and issues no
broker operation at all. -/
theorem publishToQueue_declare_gate_and_serialization_witness :
    (PublishToQueue
        { getChannelOk := true, queueDeclareOk := true, marshalOk := false,
          publishOk := true } "jobs" [7] none).2 =
      some .serializationError ∧
    (PublishToQueue
        { getChannelOk := true, queueDeclareOk := true, marshalOk := false,
          publishOk := true } "jobs" [7] none).1 = [] := by
  have h := publishToQueue_declare_gate_and_serialization
    { getChannelOk := true, queueDeclareOk := true, marshalOk := false,
      publishOk := true } "jobs" [7] none
  exact ⟨(h.2.2.2 rfl rfl (fun _ => rfl)).1, by decide⟩

/-- Counterexample to C5 as stated: with `NoAck` set, a delivery whose
handler succeeds is NOT acked by the loop — `processMessage` issues no broker
operation at all on it (the code acks only under `!options.NoAck`). -/
theorem processMessage_noAck_success_not_acked :
    (processMessage
        { getChannelOk := true, handlerFails := false, handleFailureOk := true,
          ackOk := true, nackOk := true }
        { DefaultConsumeOptions with NoAck := true }
        { Headers := none, ContentType := "", Body := [], DeliveryMode := 0,
          Priority := 0, RoutingKey := "jobs" } 0).1 = [] ∧
    (∀ m, AmqpOp.ack m ∉
        (processMessage
          { getChannelOk := true, handlerFails := false,
            handleFailureOk := true, ackOk := true, nackOk := true }
          { DefaultConsumeOptions with NoAck := true }
          { Headers := none, ContentType := "", Body := [], DeliveryMode := 0,
            Priority := 0, RoutingKey := "jobs" } 0).1) := by
  decide

/-- C5 (amended): for every delivery processed by the consumer loop — if the
handler succeeds the delivery is acked, unless `options.NoAck` is set in
which case the broker auto-acks and the loop issues no explicit ack; if the
handler fails and a configured strategy's `ShouldRetry` returns true,
`HandleFailure` is invoked and on its success the original delivery is acked;
if the handler fails and either no strategy is configured, `ShouldRetry`
returns false, or `HandleFailure` itself errors, the delivery is nacked
without requeue; and in no case does the handler's error propagate out of
`processMessage`. -/
theorem processMessage_outcomes (env : PMEnv) (options : ConsumeOptions)
    (delivery : Delivery) (now : Int) :
    (env.getChannelOk = true → env.handlerFails = false →
        options.NoAck = false →
        (processMessage env options delivery now).1 = [.ack false]) ∧
    (env.getChannelOk = true → env.handlerFails = false →
        options.NoAck = true →
        (processMessage env options delivery now).1 = []) ∧
    (∀ strategy, env.getChannelOk = true → env.handlerFails = true →
        options.RetryStrategy = some strategy →
        strategy.ShouldRetry delivery = true → env.handleFailureOk = true →
        (processMessage env options delivery now).1 =
          [(strategy.HandleFailure now delivery).2, .ack false]) ∧
    (env.getChannelOk = true → env.handlerFails = true →
        options.RetryStrategy = none →
        (processMessage env options delivery now).1 = [.nack false false]) ∧
    (∀ strategy, env.getChannelOk = true → env.handlerFails = true →
        options.RetryStrategy = some strategy →
        strategy.ShouldRetry delivery = false →
        (processMessage env options delivery now).1 = [.nack false false]) ∧
    (∀ strategy, env.getChannelOk = true → env.handlerFails = true →
        options.RetryStrategy = some strategy →
        strategy.ShouldRetry delivery = true → env.handleFailureOk = false →
        (processMessage env options delivery now).1 =
          [(strategy.HandleFailure now delivery).2, .nack false false]) ∧
    (processMessage env options delivery now).2 ≠ some .handlerError := by
  refine ⟨?_, ?_, ?_, ?_, ?_, ?_, ?_⟩
  · intro hch hf hna
    simp [processMessage, hch, hf, hna]
  · intro hch hf hna
    simp [processMessage, hch, hf, hna]
  · intro strategy hch hf hrs hsr hok
    simp [processMessage, hch, hf, hrs, hsr, hok]
  · intro hch hf hrs
    simp [processMessage, hch, hf, hrs]
  · intro strategy hch hf hrs hsr
    simp [processMessage, hch, hf, hrs, hsr]
  · intro strategy hch hf hrs hsr hok
    simp [processMessage, hch, hf, hrs, hsr, hok]
  · rcases hrs : options.RetryStrategy with _ | strategy <;>
      simp only [processMessage, hrs] <;> split_ifs <;> simp

/-- Witness for C5 at a concrete failing delivery with an exponential-backoff
strategy that still has attempts left: `HandleFailure`'s publish happens and
the original delivery is then acked. -/
theorem processMessage_outcomes_witness :
    (processMessage
        { getChannelOk := true, handlerFails := true, handleFailureOk := true,
          ackOk := true, nackOk := true }
        { DefaultConsumeOptions with RetryStrategy := some (.exponentialBackoff
            { MaxAttempts := 5, InitialDelayMs := 1000, Multiplier := 2,
              MaxDelayMs := 60000 }) }
        { Headers := none, ContentType := "", Body := [], DeliveryMode := 0,
          Priority := 0, RoutingKey := "jobs" } 0).1 =
      [(RetryStrategy.HandleFailure
          (.exponentialBackoff
            { MaxAttempts := 5, InitialDelayMs := 1000, Multiplier := 2,
              MaxDelayMs := 60000 }) 0
          { Headers := none, ContentType := "", Body := [], DeliveryMode := 0,
            Priority := 0, RoutingKey := "jobs" }).2, .ack false] := by
  exact (processMessage_outcomes
      { getChannelOk := true, handlerFails := true, handleFailureOk := true,
        ackOk := true, nackOk := true }
      { DefaultConsumeOptions with RetryStrategy := some (.exponentialBackoff
          { MaxAttempts := 5, InitialDelayMs := 1000, Multiplier := 2,
            MaxDelayMs := 60000 }) }
      { Headers := none, ContentType := "", Body := [], DeliveryMode := 0,
        Priority := 0, RoutingKey := "jobs" } 0).2.2.1
    (.exponentialBackoff
      { MaxAttempts := 5, InitialDelayMs := 1000, Multiplier := 2,
        MaxDelayMs := 60000 }) rfl rfl rfl (by decide) rfl

/-- C6: in every successful run of `ConsumeQueue` the broker operations occur
in this strict order — when `EnableDLQ` is set, the DLQ topology (exchange
`<q>.failed.dlx`, queue `<q>.failed`, their binding) is provisioned and the
queue options' `Args` are mutated to dead-letter into `<q>.failed.dlx`
before the original queue is declared (the declare itself carries the mutated
args); the retry strategy's `Setup` operations come strictly after the
declare; and the consume comes strictly after `Setup`, so no delivery reaches
the handler before the redelivery path is wired. -/
theorem consumeQueue_wires_topology_before_consuming (env : ConsumeEnv)
    (queue : String) (options? : Option ConsumeOptions)
    (hok : (ConsumeQueue env queue options?).2 = none) :
    ∃ declaredArgs : Option Table,
      (ConsumeQueue env queue options?).1 =
        (if (options?.getD DefaultConsumeOptions).EnableDLQ = true then
          [AmqpOp.exchangeDeclare (queue ++ ".failed.dlx") "direct"
              true false false false,
           AmqpOp.queueDeclare (queue ++ ".failed") true false false false none,
           AmqpOp.queueBind (queue ++ ".failed") (queue ++ ".failed")
              (queue ++ ".failed.dlx") false]
        else []) ++
        AmqpOp.queueDeclare queue
            ((options?.getD DefaultConsumeOptions).QueueOptions.getD
              DefaultQueueOptions).Durable
            ((options?.getD DefaultConsumeOptions).QueueOptions.getD
              DefaultQueueOptions).AutoDelete
            ((options?.getD DefaultConsumeOptions).QueueOptions.getD
              DefaultQueueOptions).Exclusive
            ((options?.getD DefaultConsumeOptions).QueueOptions.getD
              DefaultQueueOptions).NoWait
            declaredArgs ::
        ((match (options?.getD DefaultConsumeOptions).RetryStrategy with
          | some strategy => strategy.SetupOps queue
          | none => []) ++
         [AmqpOp.consume queue
            (options?.getD DefaultConsumeOptions).ConsumerTag
            (options?.getD DefaultConsumeOptions).NoAck
            (options?.getD DefaultConsumeOptions).Exclusive
            (options?.getD DefaultConsumeOptions).NoWait]) ∧
      ((options?.getD DefaultConsumeOptions).EnableDLQ = true →
        ∃ t, declaredArgs = some t ∧
          t.lookup "x-dead-letter-exchange" =
            some (.strVal (queue ++ ".failed.dlx")) ∧
          t.lookup "x-dead-letter-routing-key" =
            some (.strVal (queue ++ ".failed"))) := by
  by_cases hch : env.getChannelOk
  case neg => simp [ConsumeQueue, hch] at hok
  by_cases hdlq : (options?.getD DefaultConsumeOptions).EnableDLQ
  · by_cases h1 : env.dlqExchangeOk
    case neg => simp [ConsumeQueue, setupDLQ, hch, hdlq, h1] at hok
    by_cases h2 : env.dlqQueueOk
    case neg => simp [ConsumeQueue, setupDLQ, hch, hdlq, h1, h2] at hok
    by_cases h3 : env.dlqBindOk
    case neg => simp [ConsumeQueue, setupDLQ, hch, hdlq, h1, h2, h3] at hok
    by_cases h4 : env.queueDeclareOk
    case neg => simp [ConsumeQueue, setupDLQ, hch, hdlq, h1, h2, h3, h4] at hok
    rcases hrs : (options?.getD DefaultConsumeOptions).RetryStrategy
      with _ | strategy
    · by_cases h6 : env.consumeOk
      case neg =>
        simp [ConsumeQueue, setupDLQ, hch, hdlq, h1, h2, h3, h4, hrs, h6] at hok
      refine ⟨some (((((options?.getD
          DefaultConsumeOptions).QueueOptions.getD
            DefaultQueueOptions).Args.getD []).set "x-dead-letter-exchange"
          (.strVal (queue ++ ".failed.dlx"))).set "x-dead-letter-routing-key"
          (.strVal (queue ++ ".failed"))), ?_, ?_⟩
      · simp [ConsumeQueue, setupDLQ, hch, hdlq, h1, h2, h3, h4, hrs, h6]
      · intro _
        refine ⟨_, rfl, ?_, ?_⟩
        · rw [Table.lookup_set_ne _ _ _ _ (by decide), Table.lookup_set_self]
        · rw [Table.lookup_set_self]
    · by_cases h5 : env.strategySetupOk
      case neg =>
        simp [ConsumeQueue, setupDLQ, hch, hdlq, h1, h2, h3, h4, hrs, h5] at hok
      by_cases h6 : env.consumeOk
      case neg =>
        simp [ConsumeQueue, setupDLQ, hch, hdlq, h1, h2, h3, h4, hrs, h5, h6]
          at hok
      refine ⟨some (((((options?.getD
          DefaultConsumeOptions).QueueOptions.getD
            DefaultQueueOptions).Args.getD []).set "x-dead-letter-exchange"
          (.strVal (queue ++ ".failed.dlx"))).set "x-dead-letter-routing-key"
          (.strVal (queue ++ ".failed"))), ?_, ?_⟩
      · simp [ConsumeQueue, setupDLQ, hch, hdlq, h1, h2, h3, h4, hrs, h5, h6]
      · intro _
        refine ⟨_, rfl, ?_, ?_⟩
        · rw [Table.lookup_set_ne _ _ _ _ (by decide), Table.lookup_set_self]
        · rw [Table.lookup_set_self]
  · by_cases h4 : env.queueDeclareOk
    case neg => simp [ConsumeQueue, hch, hdlq, h4] at hok
    rcases hrs : (options?.getD DefaultConsumeOptions).RetryStrategy
      with _ | strategy
    · by_cases h6 : env.consumeOk
      case neg => simp [ConsumeQueue, hch, hdlq, h4, hrs, h6] at hok
      refine ⟨((options?.getD DefaultConsumeOptions).QueueOptions.getD
          DefaultQueueOptions).Args, ?_, by simp [hdlq]⟩
      simp [ConsumeQueue, hch, hdlq, h4, hrs, h6]
    · by_cases h5 : env.strategySetupOk
      case neg => simp [ConsumeQueue, hch, hdlq, h4, hrs, h5] at hok
      by_cases h6 : env.consumeOk
      case neg => simp [ConsumeQueue, hch, hdlq, h4, hrs, h5, h6] at hok
      refine ⟨((options?.getD DefaultConsumeOptions).QueueOptions.getD
          DefaultQueueOptions).Args, ?_, by simp [hdlq]⟩
      simp [ConsumeQueue, hch, hdlq, h4, hrs, h5, h6]

/-- Witness for C6: a concrete all-successful run with DLQ enabled and a
fixed-delay strategy produces the trace in the claimed order. -/
theorem consumeQueue_wires_topology_witness :
    ∃ declaredArgs : Option Table,
      (ConsumeQueue
        { getChannelOk := true, dlqExchangeOk := true, dlqQueueOk := true,
          dlqBindOk := true, queueDeclareOk := true, strategySetupOk := true,
          consumeOk := true } "jobs"
        (some { DefaultConsumeOptions with
            EnableDLQ := true,
            RetryStrategy := some (.fixedDelay { MaxAttempts := 3, DelayMs := 500 }) })).1 =
        (if ((some { DefaultConsumeOptions with
            EnableDLQ := true,
            RetryStrategy := some (.fixedDelay { MaxAttempts := 3, DelayMs := 500 }) }).getD
              DefaultConsumeOptions).EnableDLQ = true then
          [AmqpOp.exchangeDeclare ("jobs" ++ ".failed.dlx") "direct"
              true false false false,
           AmqpOp.queueDeclare ("jobs" ++ ".failed") true false false false
              none,
           AmqpOp.queueBind ("jobs" ++ ".failed") ("jobs" ++ ".failed")
              ("jobs" ++ ".failed.dlx") false]
        else []) ++
        AmqpOp.queueDeclare "jobs" true false false false declaredArgs ::
        ((match ((some { DefaultConsumeOptions with
            EnableDLQ := true,
            RetryStrategy := some (.fixedDelay { MaxAttempts := 3, DelayMs := 500 }) }).getD
              DefaultConsumeOptions).RetryStrategy with
          | some strategy => strategy.SetupOps "jobs"
          | none => []) ++
         [AmqpOp.consume "jobs" "" false false false]) ∧
      (((some { DefaultConsumeOptions with
            EnableDLQ := true,
            RetryStrategy := some (.fixedDelay { MaxAttempts := 3, DelayMs := 500 }) }).getD
            DefaultConsumeOptions).EnableDLQ = true →
        ∃ t, declaredArgs = some t ∧
          t.lookup "x-dead-letter-exchange" =
            some (.strVal ("jobs" ++ ".failed.dlx")) ∧
          t.lookup "x-dead-letter-routing-key" =
            some (.strVal ("jobs" ++ ".failed"))) :=
  consumeQueue_wires_topology_before_consuming
    { getChannelOk := true, dlqExchangeOk := true, dlqQueueOk := true,
      dlqBindOk := true, queueDeclareOk := true, strategySetupOk := true,
      consumeOk := true } "jobs"
    (some { DefaultConsumeOptions with
            EnableDLQ := true,
            RetryStrategy := some (.fixedDelay { MaxAttempts := 3, DelayMs := 500 }) })
    (by decide)

theorem filterMap_eq_map_of_some {α γ : Type} (h : α → Option γ) (f : α → γ)
    (hf : ∀ a, h a = some (f a)) (l : List α) : l.filterMap h = l.map f := by
  induction l with
  | nil => rfl
  | cons a l ih => simp [List.filterMap_cons, hf, ih]

theorem filterMap_eq_nil_of_none {α γ : Type} (h : α → Option γ)
    (hf : ∀ a, h a = none) (l : List α) : l.filterMap h = [] := by
  induction l with
  | nil => rfl
  | cons a l ih => simp [List.filterMap_cons, hf, ih]

/-- The message TTLs of the queues `ExponentialBackoffStrategy.Setup`
declares, in declaration order: `int32(GetDelay i)` for `i < maxAttempts`. -/
theorem expBackoff_setupOps_ttls (s : ExponentialBackoffStrategy)
    (q : String) :
    ((s.SetupOps q).filterMap fun op =>
        match op with
        | AmqpOp.queueDeclare _ _ _ _ _ (some args) =>
            args.lookup "x-message-ttl"
        | _ => none) =
      (List.range s.MaxAttempts.toNat).map
        (fun (i : Nat) => HeaderValue.int32Val (toInt32 (s.GetDelay (i : Int)))) := by
  simp only [ExponentialBackoffStrategy.SetupOps, List.filterMap_append,
    List.filterMap_map]
  rw [filterMap_eq_map_of_some _
    (fun i : Nat => HeaderValue.int32Val (toInt32 (s.GetDelay (i : Int))))
    (fun i => by simp [Table.lookup])]
  simp [List.filterMap_cons]

/-- The names of the queues `ExponentialBackoffStrategy.Setup` declares, in
declaration order: `<q>.wait.<i>` for `i < maxAttempts`. -/
theorem expBackoff_setupOps_queueNames (s : ExponentialBackoffStrategy)
    (q : String) :
    ((s.SetupOps q).filterMap fun op =>
        match op with
        | AmqpOp.queueDeclare name _ _ _ _ _ => some name
        | _ => none) =
      (List.range s.MaxAttempts.toNat).map
        (fun i => q ++ ".wait." ++ toString i) := by
  simp only [ExponentialBackoffStrategy.SetupOps, List.filterMap_append,
    List.filterMap_map]
  rw [filterMap_eq_map_of_some _
    (fun i : Nat => q ++ ".wait." ++ toString i) (fun i => by simp)]
  simp [List.filterMap_cons]

/-- Counterexample to C4 as stated: with the spec's reference parameters
(initial 1000 ms, multiplier 2, cap 60000 ms) and `maxAttempts = 8`,
`GetDelay` is capped to 60000 at levels 6 and 7, so `Setup` declares two wait
queues with the SAME TTL — the per-level TTLs are not pairwise distinct. -/
theorem expBackoff_setup_ttls_not_distinct :
    ExponentialBackoffStrategy.GetDelay
        { MaxAttempts := 8, InitialDelayMs := 1000, Multiplier := 2,
          MaxDelayMs := 60000 } 6 = 60000 ∧
    ExponentialBackoffStrategy.GetDelay
        { MaxAttempts := 8, InitialDelayMs := 1000, Multiplier := 2,
          MaxDelayMs := 60000 } 7 = 60000 ∧
    ¬ List.Pairwise (fun a b => a ≠ b)
        ((ExponentialBackoffStrategy.SetupOps
            { MaxAttempts := 8, InitialDelayMs := 1000, Multiplier := 2,
              MaxDelayMs := 60000 } "jobs").filterMap fun op =>
          match op with
          | AmqpOp.queueDeclare _ _ _ _ _ (some args) =>
              args.lookup "x-message-ttl"
          | _ => none) := by
  have h0 : ExponentialBackoffStrategy.GetDelay
      { MaxAttempts := 8, InitialDelayMs := 1000, Multiplier := 2,
        MaxDelayMs := 60000 } 0 = 1000 := by
    norm_num [ExponentialBackoffStrategy.GetDelay, ratTrunc]
  have h1 : ExponentialBackoffStrategy.GetDelay
      { MaxAttempts := 8, InitialDelayMs := 1000, Multiplier := 2,
        MaxDelayMs := 60000 } 1 = 2000 := by
    norm_num [ExponentialBackoffStrategy.GetDelay, ratTrunc]
  have h2 : ExponentialBackoffStrategy.GetDelay
      { MaxAttempts := 8, InitialDelayMs := 1000, Multiplier := 2,
        MaxDelayMs := 60000 } 2 = 4000 := by
    norm_num [ExponentialBackoffStrategy.GetDelay, ratTrunc]
  have h3 : ExponentialBackoffStrategy.GetDelay
      { MaxAttempts := 8, InitialDelayMs := 1000, Multiplier := 2,
        MaxDelayMs := 60000 } 3 = 8000 := by
    norm_num [ExponentialBackoffStrategy.GetDelay, ratTrunc]
  have h4 : ExponentialBackoffStrategy.GetDelay
      { MaxAttempts := 8, InitialDelayMs := 1000, Multiplier := 2,
        MaxDelayMs := 60000 } 4 = 16000 := by
    norm_num [ExponentialBackoffStrategy.GetDelay, ratTrunc]
  have h5 : ExponentialBackoffStrategy.GetDelay
      { MaxAttempts := 8, InitialDelayMs := 1000, Multiplier := 2,
        MaxDelayMs := 60000 } 5 = 32000 := by
    norm_num [ExponentialBackoffStrategy.GetDelay, ratTrunc]
  have h6 : ExponentialBackoffStrategy.GetDelay
      { MaxAttempts := 8, InitialDelayMs := 1000, Multiplier := 2,
        MaxDelayMs := 60000 } 6 = 60000 := by
    norm_num [ExponentialBackoffStrategy.GetDelay, ratTrunc]
  have h7 : ExponentialBackoffStrategy.GetDelay
      { MaxAttempts := 8, InitialDelayMs := 1000, Multiplier := 2,
        MaxDelayMs := 60000 } 7 = 60000 := by
    norm_num [ExponentialBackoffStrategy.GetDelay, ratTrunc]
  refine ⟨h6, h7, ?_⟩
  intro hp
  rw [expBackoff_setupOps_ttls] at hp
  simp only [show (8 : Int).toNat = 8 from rfl] at hp
  norm_num [List.range_succ, List.pairwise_append, h0, h1, h2, h3, h4, h5,
    h6, h7] at hp

/-- C4 (amended): `Setup` declares one direct exchange `<q>.dlx` first and,
for each `i < maxAttempts`, one durable wait queue `<q>.wait.<i>` whose
message TTL is `int32(GetDelay i)` and whose dead-letter exchange / routing
key point back at `<q>.dlx` / `<q>` — the queues it declares are exactly the
`maxAttempts` wait queues, one per attempt level — and it binds the original
queue to `<q>.dlx` once, as the last operation.  (The TTLs are NOT pairwise
distinct in general: the `maxDelayMs` cap, or a multiplier of 1, can give two
levels the same TTL.) -/
theorem expBackoff_setup_topology (s : ExponentialBackoffStrategy)
    (q : String) :
    ((s.SetupOps q).head? =
        some (.exchangeDeclare (q ++ ".dlx") "direct" true false false false)) ∧
    ((s.SetupOps q).filterMap fun op =>
        match op with
        | AmqpOp.exchangeDeclare name ekind _ _ _ _ => some (name, ekind)
        | _ => none) = [(q ++ ".dlx", "direct")] ∧
    ((s.SetupOps q).filterMap fun op =>
        match op with
        | AmqpOp.queueDeclare name _ _ _ _ _ => some name
        | _ => none) =
      (List.range s.MaxAttempts.toNat).map
        (fun i => q ++ ".wait." ++ toString i) ∧
    (∀ i : Nat, i < s.MaxAttempts.toNat →
        ∃ args : Table,
          AmqpOp.queueDeclare (q ++ ".wait." ++ toString i) true false false
              false (some args) ∈ s.SetupOps q ∧
          args.lookup "x-dead-letter-exchange" =
            some (.strVal (q ++ ".dlx")) ∧
          args.lookup "x-dead-letter-routing-key" = some (.strVal q) ∧
          args.lookup "x-message-ttl" =
            some (.int32Val (toInt32 (s.GetDelay (i : Int))))) ∧
    ((s.SetupOps q).filterMap fun op =>
        match op with
        | AmqpOp.queueBind qn key ex _ => some (qn, key, ex)
        | _ => none) = [(q, q, q ++ ".dlx")] ∧
    (s.SetupOps q).getLast? = some (.queueBind q q (q ++ ".dlx") false) := by
  refine ⟨?_, ?_, expBackoff_setupOps_queueNames s q, ?_, ?_, ?_⟩
  · simp [ExponentialBackoffStrategy.SetupOps]
  · simp only [ExponentialBackoffStrategy.SetupOps, List.filterMap_append,
      List.filterMap_map]
    rw [filterMap_eq_nil_of_none _ (fun a => by simp [Function.comp])
      (List.range s.MaxAttempts.toNat)]
    simp [List.filterMap_cons]
  · intro i hi
    refine ⟨[("x-dead-letter-exchange", .strVal (q ++ ".dlx")),
             ("x-dead-letter-routing-key", .strVal q),
             ("x-message-ttl", .int32Val (toInt32 (s.GetDelay (i : Int))))],
      ?_, by simp [Table.lookup], by simp [Table.lookup],
      by simp [Table.lookup]⟩
    simp only [ExponentialBackoffStrategy.SetupOps]
    refine List.mem_append_left _ (List.mem_append_right _ ?_)
    exact List.mem_map.mpr ⟨i, List.mem_range.mpr hi, rfl⟩
  · simp only [ExponentialBackoffStrategy.SetupOps, List.filterMap_append,
      List.filterMap_map]
    rw [filterMap_eq_nil_of_none _ (fun a => by simp [Function.comp])
      (List.range s.MaxAttempts.toNat)]
    simp [List.filterMap_cons]
  · simp only [ExponentialBackoffStrategy.SetupOps]
    exact List.getLast?_concat _

/-- Witness for C4 (amended) at `maxAttempts = 3`, initial delay 1000 ms,
multiplier 2: wait queue 2 is declared with TTL 4000 and dead-letter args
pointing back at the DLX. -/
theorem expBackoff_setup_topology_witness :
    ∃ args : Table,
      AmqpOp.queueDeclare ("jobs" ++ ".wait." ++ toString (2 : Nat)) true
          false false false (some args) ∈
        ExponentialBackoffStrategy.SetupOps
          { MaxAttempts := 3, InitialDelayMs := 1000, Multiplier := 2,
            MaxDelayMs := 60000 } "jobs" ∧
      args.lookup "x-dead-letter-exchange" =
        some (.strVal ("jobs" ++ ".dlx")) ∧
      args.lookup "x-dead-letter-routing-key" = some (.strVal "jobs") ∧
      args.lookup "x-message-ttl" =
        some (.int32Val (toInt32
          (ExponentialBackoffStrategy.GetDelay
            { MaxAttempts := 3, InitialDelayMs := 1000, Multiplier := 2,
              MaxDelayMs := 60000 } ((2 : Nat) : Int)))) :=
  (expBackoff_setup_topology
      { MaxAttempts := 3, InitialDelayMs := 1000, Multiplier := 2,
        MaxDelayMs := 60000 } "jobs").2.2.2.1 2 (by decide)

/-- C7 evaluated against the code: the Go `ConsumeQueue` never performs a
consumer-tag registration (no run of it, successful or not, contains a
`registerConsumerTag` action, so the connection's registry still has no entry
for the queue afterwards), and the Go `CancelConsumer` takes a raw consumer
tag: its behaviour is independent of the registry, it never removes a
registration, and when the broker cancel fails it returns an error rather
than warn-and-no-op.  This contradicts the spec'd contract (register the
resulting tag; `CancelConsumer(conn, queue)` looks up the registered tag and
is a warning no-op when none exists), which the package's own
`RegisterConsumerTag`/`GetConsumerTag`/`RemoveConsumerTag` API (part_009) and
its TypeScript twin implement. -/
theorem consumer_tag_registry_unused :
    (∀ (env : ConsumeEnv) (queue : String)
        (options? : Option ConsumeOptions) (q t : String),
        AmqpOp.registerConsumerTag q t ∉ (ConsumeQueue env queue options?).1) ∧
    (∀ (env : CancelEnv) (tags tags' : List (String × String))
        (consumerTag : String),
        (CancelConsumer env tags consumerTag).1 =
          (CancelConsumer env tags' consumerTag).1 ∧
        (CancelConsumer env tags consumerTag).2.1 =
          (CancelConsumer env tags' consumerTag).2.1) ∧
    (∀ (env : CancelEnv) (tags : List (String × String))
        (consumerTag : String),
        (CancelConsumer env tags consumerTag).2.2 = tags) ∧
    (∀ (tags : List (String × String)) (consumerTag : String),
        (CancelConsumer { getChannelOk := true, cancelOk := false } tags
          consumerTag).2.1 = some .cancelError) := by
  have hsetup : ∀ (strategy : RetryStrategy) (queue q t : String),
      AmqpOp.registerConsumerTag q t ∉ strategy.SetupOps queue := by
    intro strategy queue q t
    cases strategy with
    | immediate s =>
        simp [RetryStrategy.SetupOps, ImmediateRetryStrategy.SetupOps]
    | fixedDelay s =>
        simp [RetryStrategy.SetupOps, FixedDelayRetryStrategy.SetupOps]
    | exponentialBackoff s =>
        simp [RetryStrategy.SetupOps, ExponentialBackoffStrategy.SetupOps]
  refine ⟨?_, ?_, ?_, ?_⟩
  · intro env queue options? q t
    by_cases hch : env.getChannelOk
    case neg => simp [ConsumeQueue, hch]
    by_cases hdlq : (options?.getD DefaultConsumeOptions).EnableDLQ <;>
      by_cases h1 : env.dlqExchangeOk <;>
      by_cases h2 : env.dlqQueueOk <;>
      by_cases h3 : env.dlqBindOk <;>
      by_cases h4 : env.queueDeclareOk <;>
      rcases hrs : (options?.getD DefaultConsumeOptions).RetryStrategy
        with _ | strategy <;>
      by_cases h5 : env.strategySetupOk <;>
      by_cases h6 : env.consumeOk <;>
      simp [ConsumeQueue, setupDLQ, hch, hdlq, h1, h2, h3, h4, hrs, h5, h6,
        hsetup]
  · intro env tags tags' consumerTag
    unfold CancelConsumer
    split_ifs <;> simp
  · intro env tags consumerTag
    unfold CancelConsumer
    split_ifs <;> simp
  · intro tags consumerTag
    simp [CancelConsumer]

end RabbitMQ
